import Mathlib

/-
Verification of the scoreboard submission UI.

The repository has two components:
* TeamPage (src/src/pages/TeamPage.tsx): a controlled form with state
  imageFile, imagePreview, mapNumber, placement, playerKills (three
  strings) and a submitting flag, plus handlers handleFileChange,
  processPastedImage and handleSubmit.
* TopBar (unnamed source file): a bar of 15 map buttons.

External services (the browser-image-compression library, the supabase
storage/database client, the JavaScript Number conversion and
URL.createObjectURL) are modelled as function parameters; errors they can
raise are modelled with Option (some = error for the supabase calls, none =
failure for compression, none = NaN for Number).  Every observable action a
handler performs (alert, console.error, setSubmitting, upload, getPublicUrl,
insert, the compression call) is recorded in order in a trace of Effects, so
that ordering and exactly-once properties can be stated.
-/

/-- An opaque browser File object, identified by an id. -/
structure FileObj where
  id : Nat
  deriving DecidableEq, Repr

/-- The row inserted into the submissions table.  The fields are exactly the
keys of the object literal passed to insert in handleSubmit. -/
structure Record where
  team_id : Int
  map_number : Int
  player1_kills : Int
  player2_kills : Int
  player3_kills : Int
  placement : Int
  scoreboard_image_url : String
  deriving DecidableEq, Repr

/-- The React state of TeamPage, in declaration order of the useState hooks. -/
structure FormState where
  imageFile : Option FileObj
  imagePreview : String
  mapNumber : Int
  placement : Int
  playerKills : List String
  submitting : Bool
  deriving DecidableEq, Repr

/-- The initial TeamPage state: no image, empty preview, map 1, placement 0,
three empty kill strings, not submitting. -/
def initialFormState : FormState :=
  { imageFile := none, imagePreview := "", mapNumber := 1, placement := 0,
    playerKills := ["", "", ""], submitting := false }

/-- One observable action of a handler, recorded in program order. -/
inductive Effect where
  | alertMsg (msg : String)
  | consoleError (tag : String)
  | setSubmitting (b : Bool)
  | compressCall (file : FileObj)
  | upload (bucket : String) (fileName : String) (file : FileObj) (upsert : Bool)
  | getPublicUrl (bucket : String) (fileName : String)
  | insert (table : String) (row : Record)
  deriving DecidableEq, Repr

/-- The supabase client, as seen by handleSubmit: upload may return an error,
getPublicUrl returns a public URL for a file name, insert may return an
error. -/
structure Backend where
  uploadError : String → FileObj → Option String
  publicUrl : String → String
  insertError : Record → Option String

/-- The kill-string conversion of handleSubmit line 101:
an empty string maps to 0 and any other string to Number(k).  numberFn
models the JavaScript Number conversion, with none standing for NaN. -/
def jsParseKill (numberFn : String → Option Int) (k : String) : Option Int :=
  if k = "" then some 0 else numberFn k

/-- killsNums = playerKills.map(k => k === empty ? 0 : Number(k)). -/
def killsNumsOf (numberFn : String → Option Int) (playerKills : List String) :
    List (Option Int) :=
  playerKills.map (jsParseKill numberFn)

/-- The uploaded file name, team-teamId-_map-mapNumber-_-now-.jpg with now =
Date.now(). -/
def mkFileName (teamId mapNumber now : Int) : String :=
  "team" ++ toString teamId ++ "_map" ++ toString mapNumber ++ "_" ++
    toString now ++ ".jpg"

/-- The record handed to insert in handleSubmit lines 126 to 134. -/
def mkRow (teamId mapNumber v1 v2 v3 placement : Int) (url : String) : Record :=
  { team_id := teamId, map_number := mapNumber, player1_kills := v1,
    player2_kills := v2, player3_kills := v3, placement := placement,
    scoreboard_image_url := url }

/-- handleSubmit of TeamPage.tsx lines 93 to 152, as a function from the
state at the moment submit is pressed to the state after the handler finishes
together with the trace of its observable actions.  teamId is the component
prop, now is Date.now(), numberFn is the Number conversion and B the supabase
client. -/
def handleSubmit (teamId now : Int) (numberFn : String → Option Int)
    (B : Backend) (s : FormState) : FormState × List Effect :=
  match s.imageFile with
  | none => (s, [Effect.alertMsg "Please upload or paste a scoreboard image."])
  | some file =>
    let killsNums := killsNumsOf numberFn s.playerKills
    if killsNums.any Option.isNone then
      (s, [Effect.alertMsg "Please enter valid numbers for player kills."])
    else
      let fileName := mkFileName teamId s.mapNumber now
      match B.uploadError fileName file with
      | some _ =>
        ({ s with submitting := false },
         [Effect.setSubmitting true,
          Effect.upload "scoreboards" fileName file true,
          Effect.consoleError "Submission error:",
          Effect.alertMsg "Failed to submit. Check console for details.",
          Effect.setSubmitting false])
      | none =>
        let imageUrl := B.publicUrl fileName
        let row : Record :=
          mkRow teamId s.mapNumber ((killsNums.getD 0 none).getD 0)
            ((killsNums.getD 1 none).getD 0) ((killsNums.getD 2 none).getD 0)
            s.placement imageUrl
        match B.insertError row with
        | some _ =>
          ({ s with submitting := false },
           [Effect.setSubmitting true,
            Effect.upload "scoreboards" fileName file true,
            Effect.getPublicUrl "scoreboards" fileName,
            Effect.insert "submissions" row,
            Effect.consoleError "Submission error:",
            Effect.alertMsg "Failed to submit. Check console for details.",
            Effect.setSubmitting false])
        | none =>
          ({ s with mapNumber := s.mapNumber + 1, placement := 0,
                    playerKills := ["", "", ""], imageFile := none,
                    imagePreview := "", submitting := false },
           [Effect.setSubmitting true,
            Effect.upload "scoreboards" fileName file true,
            Effect.getPublicUrl "scoreboards" fileName,
            Effect.insert "submissions" row,
            Effect.alertMsg "Submission uploaded successfully!",
            Effect.setSubmitting false])

/-- handleFileChange of TeamPage.tsx lines 26 to 39.  compress models the
browser-image-compression call (none = the call threw), createObjectURL
models URL.createObjectURL, eventFile is e.target.files?.[0]. -/
def handleFileChange (compress : FileObj → Option FileObj)
    (createObjectURL : FileObj → String) (eventFile : Option FileObj)
    (s : FormState) : FormState × List Effect :=
  match eventFile with
  | none => (s, [])
  | some file =>
    match compress file with
    | some compressedFile =>
      ({ s with imageFile := some compressedFile,
                imagePreview := createObjectURL compressedFile },
       [Effect.compressCall file])
    | none =>
      ({ s with imageFile := some file, imagePreview := createObjectURL file },
       [Effect.compressCall file,
        Effect.consoleError "Image compression failed:"])

/-- processPastedImage of TeamPage.tsx lines 42 to 52; same shape as
handleFileChange with a different console tag. -/
def processPastedImage (compress : FileObj → Option FileObj)
    (createObjectURL : FileObj → String) (file : FileObj)
    (s : FormState) : FormState × List Effect :=
  match compress file with
  | some compressedFile =>
    ({ s with imageFile := some compressedFile,
              imagePreview := createObjectURL compressedFile },
     [Effect.compressCall file])
  | none =>
    ({ s with imageFile := some file, imagePreview := createObjectURL file },
     [Effect.compressCall file,
      Effect.consoleError "Paste compression failed:"])

/-- The submit button is rendered with disabled={submitting}. -/
def submitButtonDisabled (s : FormState) : Bool :=
  s.submitting

/-- The rows carried by the insert effects of a trace, in order. -/
def insertedRows (tr : List Effect) : List Record :=
  tr.filterMap (fun e => match e with
    | Effect.insert _ row => some row
    | _ => none)

/-- The files carried by the upload effects of a trace, in order. -/
def uploadedFiles (tr : List Effect) : List FileObj :=
  tr.filterMap (fun e => match e with
    | Effect.upload _ _ file _ => some file
    | _ => none)

/-- The files handed to the compression library, in order. -/
def compressedCalls (tr : List Effect) : List FileObj :=
  tr.filterMap (fun e => match e with
    | Effect.compressCall file => some file
    | _ => none)

/-- The supabase calls of a trace (upload, getPublicUrl, insert), in order. -/
def backendCalls (tr : List Effect) : List Effect :=
  tr.filter (fun e => match e with
    | Effect.upload _ _ _ _ => true
    | Effect.getPublicUrl _ _ => true
    | Effect.insert _ _ => true
    | _ => false)

/-- Whether an effect is a blocking alert. -/
def isAlert : Effect → Bool
  | Effect.alertMsg _ => true
  | _ => false

/-- Whether an effect is a console.error log. -/
def isConsoleError : Effect → Bool
  | Effect.consoleError _ => true
  | _ => false

/-- Whether an effect is a write to the submitting flag. -/
def isSetSubmitting : Effect → Bool
  | Effect.setSubmitting _ => true
  | _ => false

/-- One rendered button of the TopBar component. -/
structure MapButton where
  key : Int
  className : String
  label : String
  onClickArg : Int
  deriving DecidableEq, Repr

/-- TopBar (unnamed source file, lines 8 to 27): Array.from of length 15,
index 0 to 14, mapNumber = index + 1; the className template yields
map-button plus a space plus either selected or the empty string; onClickArg
is the argument the onClick closure passes to onSelectMap. -/
def topBar (selectedMap : Int) : List MapButton :=
  (List.range 15).map (fun (index : Nat) =>
    let mapNumber : Int := (index : Int) + 1
    { key := mapNumber,
      className := "map-button " ++
        (if selectedMap = mapNumber then "selected" else ""),
      label := "Map " ++ toString mapNumber,
      onClickArg := mapNumber })

/-- Splitting a character list on spaces, keeping empty segments, as the DOM
class attribute is tokenised. -/
def wordsAux : List Char → List Char → List (List Char)
  | [], acc => [acc.reverse]
  | c :: cs, acc =>
    if c = ' ' then acc.reverse :: wordsAux cs []
    else wordsAux cs (c :: acc)

/-- A class attribute carries a class when splitting on spaces yields it. -/
def hasClass (cls attr : String) : Bool :=
  (wordsAux attr.data []).contains cls.data

/-- A button value outside the rendered range, used as getD default. -/
def dummyButton : MapButton :=
  { key := 0, className := "", label := "", onClickArg := 0 }

/-- A concrete createObjectURL instance for witnesses. -/
def urlOf (f : FileObj) : String :=
  "blob:" ++ toString f.id

/-- A compression instance that always throws. -/
def compressNone : FileObj → Option FileObj :=
  fun _ => none

/-- A compression instance that always succeeds, producing a fresh file. -/
def compressShrink : FileObj → Option FileObj :=
  fun f => some { id := f.id + 1000 }

/-- A Number instance that treats every string as NaN; the empty string is
handled before Number is consulted, so it still supports valid submissions
with empty kill strings. -/
def numFn0 : String → Option Int :=
  fun _ => none

/-- A backend where both upload and insert succeed. -/
def okBackend : Backend :=
  { uploadError := fun _ _ => none,
    publicUrl := fun n => "https://cdn.example/" ++ n,
    insertError := fun _ => none }

/-- A backend where the upload fails. -/
def uploadFailBackend : Backend :=
  { uploadError := fun _ _ => some "upload failed",
    publicUrl := fun n => "https://cdn.example/" ++ n,
    insertError := fun _ => none }

/-- A backend where the upload succeeds and the insert fails. -/
def insertFailBackend : Backend :=
  { uploadError := fun _ _ => none,
    publicUrl := fun n => "https://cdn.example/" ++ n,
    insertError := fun _ => some "insert failed" }

/-- Mapping the three kill strings when each converts to a number. -/
theorem killsNumsOf_cons3 (numberFn : String → Option Int)
    (k1 k2 k3 : String) (v1 v2 v3 : Int)
    (h1 : jsParseKill numberFn k1 = some v1)
    (h2 : jsParseKill numberFn k2 = some v2)
    (h3 : jsParseKill numberFn k3 = some v3) :
    killsNumsOf numberFn [k1, k2, k3] = [some v1, some v2, some v3] := by
  simp [killsNumsOf, h1, h2, h3]

/-- handleSubmit with no image: the first guard alerts and returns. -/
theorem handleSubmit_noImage (teamId now : Int)
    (numberFn : String → Option Int) (B : Backend) (prev : String)
    (m p : Int) (ks : List String) (sub : Bool) :
    handleSubmit teamId now numberFn B (FormState.mk none prev m p ks sub) =
      (FormState.mk none prev m p ks sub,
       [Effect.alertMsg "Please upload or paste a scoreboard image."]) := rfl

/-- handleSubmit with an image but a kill string that is NaN: the second
guard alerts and returns. -/
theorem handleSubmit_invalidKills (teamId now : Int)
    (numberFn : String → Option Int) (B : Backend) (f : FileObj)
    (prev : String) (m p : Int) (ks : List String) (sub : Bool)
    (h : (killsNumsOf numberFn ks).any Option.isNone = true) :
    handleSubmit teamId now numberFn B
        (FormState.mk (some f) prev m p ks sub) =
      (FormState.mk (some f) prev m p ks sub,
       [Effect.alertMsg "Please enter valid numbers for player kills."]) := by
  simp [handleSubmit, h]

/-- handleSubmit when validation passes and the upload errors. -/
theorem handleSubmit_uploadErr (teamId now : Int)
    (numberFn : String → Option Int) (B : Backend) (f : FileObj)
    (prev : String) (m p : Int) (k1 k2 k3 : String) (sub : Bool)
    (v1 v2 v3 : Int) (err : String)
    (h1 : jsParseKill numberFn k1 = some v1)
    (h2 : jsParseKill numberFn k2 = some v2)
    (h3 : jsParseKill numberFn k3 = some v3)
    (hup : B.uploadError (mkFileName teamId m now) f = some err) :
    handleSubmit teamId now numberFn B
        (FormState.mk (some f) prev m p [k1, k2, k3] sub) =
      (FormState.mk (some f) prev m p [k1, k2, k3] false,
       [Effect.setSubmitting true,
        Effect.upload "scoreboards" (mkFileName teamId m now) f true,
        Effect.consoleError "Submission error:",
        Effect.alertMsg "Failed to submit. Check console for details.",
        Effect.setSubmitting false]) := by
  simp [handleSubmit, killsNumsOf_cons3 numberFn k1 k2 k3 v1 v2 v3 h1 h2 h3,
    hup]

/-- handleSubmit when validation passes, the upload succeeds and the insert
errors. -/
theorem handleSubmit_insertErr (teamId now : Int)
    (numberFn : String → Option Int) (B : Backend) (f : FileObj)
    (prev : String) (m p : Int) (k1 k2 k3 : String) (sub : Bool)
    (v1 v2 v3 : Int) (err : String)
    (h1 : jsParseKill numberFn k1 = some v1)
    (h2 : jsParseKill numberFn k2 = some v2)
    (h3 : jsParseKill numberFn k3 = some v3)
    (hup : B.uploadError (mkFileName teamId m now) f = none)
    (hins : B.insertError (mkRow teamId m v1 v2 v3 p
      (B.publicUrl (mkFileName teamId m now))) = some err) :
    handleSubmit teamId now numberFn B
        (FormState.mk (some f) prev m p [k1, k2, k3] sub) =
      (FormState.mk (some f) prev m p [k1, k2, k3] false,
       [Effect.setSubmitting true,
        Effect.upload "scoreboards" (mkFileName teamId m now) f true,
        Effect.getPublicUrl "scoreboards" (mkFileName teamId m now),
        Effect.insert "submissions" (mkRow teamId m v1 v2 v3 p
          (B.publicUrl (mkFileName teamId m now))),
        Effect.consoleError "Submission error:",
        Effect.alertMsg "Failed to submit. Check console for details.",
        Effect.setSubmitting false]) := by
  simp [handleSubmit, killsNumsOf_cons3 numberFn k1 k2 k3 v1 v2 v3 h1 h2 h3,
    hup, hins]

/-- handleSubmit when validation passes and both backend calls succeed. -/
theorem handleSubmit_success (teamId now : Int)
    (numberFn : String → Option Int) (B : Backend) (f : FileObj)
    (prev : String) (m p : Int) (k1 k2 k3 : String) (sub : Bool)
    (v1 v2 v3 : Int)
    (h1 : jsParseKill numberFn k1 = some v1)
    (h2 : jsParseKill numberFn k2 = some v2)
    (h3 : jsParseKill numberFn k3 = some v3)
    (hup : B.uploadError (mkFileName teamId m now) f = none)
    (hins : B.insertError (mkRow teamId m v1 v2 v3 p
      (B.publicUrl (mkFileName teamId m now))) = none) :
    handleSubmit teamId now numberFn B
        (FormState.mk (some f) prev m p [k1, k2, k3] sub) =
      (FormState.mk none "" (m + 1) 0 ["", "", ""] false,
       [Effect.setSubmitting true,
        Effect.upload "scoreboards" (mkFileName teamId m now) f true,
        Effect.getPublicUrl "scoreboards" (mkFileName teamId m now),
        Effect.insert "submissions" (mkRow teamId m v1 v2 v3 p
          (B.publicUrl (mkFileName teamId m now))),
        Effect.alertMsg "Submission uploaded successfully!",
        Effect.setSubmitting false]) := by
  simp [handleSubmit, killsNumsOf_cons3 numberFn k1 k2 k3 v1 v2 v3 h1 h2 h3,
    hup, hins]

/-- Claim C1: for every successful submission exactly one outbound record is
written, and it is a Record (whose fields are exactly team_id, map_number,
player1_kills, player2_kills, player3_kills, placement,
scoreboard_image_url) with team_id = the teamId prop, map_number and
placement = the current form state, the three kill fields = the parsed kill
inputs, and scoreboard_image_url = the public URL of the uploaded file. -/
theorem c1_one_record_per_submission (teamId now : Int)
    (numberFn : String → Option Int) (B : Backend) (f : FileObj)
    (prev : String) (m p : Int) (k1 k2 k3 : String) (sub : Bool)
    (v1 v2 v3 : Int)
    (h1 : jsParseKill numberFn k1 = some v1)
    (h2 : jsParseKill numberFn k2 = some v2)
    (h3 : jsParseKill numberFn k3 = some v3)
    (hup : B.uploadError (mkFileName teamId m now) f = none)
    (hins : B.insertError (mkRow teamId m v1 v2 v3 p
      (B.publicUrl (mkFileName teamId m now))) = none) :
    insertedRows (handleSubmit teamId now numberFn B
        (FormState.mk (some f) prev m p [k1, k2, k3] sub)).2 =
      [mkRow teamId m v1 v2 v3 p (B.publicUrl (mkFileName teamId m now))] := by
  rw [handleSubmit_success teamId now numberFn B f prev m p k1 k2 k3 sub
    v1 v2 v3 h1 h2 h3 hup hins]
  rfl

/-- Witness for C1 at a concrete input. -/
theorem c1_one_record_per_submission_witness :
    jsParseKill numFn0 "" = some 0 ∧
    okBackend.uploadError (mkFileName 7 3 100) { id := 5 } = none ∧
    okBackend.insertError (mkRow 7 3 0 0 0 2
      (okBackend.publicUrl (mkFileName 7 3 100))) = none ∧
    insertedRows (handleSubmit 7 100 numFn0 okBackend
        (FormState.mk (some { id := 5 }) "pv" 3 2 ["", "", ""] false)).2 =
      [mkRow 7 3 0 0 0 2 (okBackend.publicUrl (mkFileName 7 3 100))] :=
  ⟨by decide, rfl, rfl,
    c1_one_record_per_submission 7 100 numFn0 okBackend { id := 5 } "pv" 3 2
      "" "" "" false 0 0 0 (by decide) (by decide) (by decide) rfl rfl⟩

/-- Claim C2: every submission that reaches the backend performs upload, then
getPublicUrl, then insert, in that order (also when the insert itself
errors); the inserted row carries the public URL returned for the uploaded
file name; and when the upload returns an error neither getPublicUrl nor the
insert is attempted. -/
theorem c2_backend_call_order (teamId now : Int)
    (numberFn : String → Option Int) (B : Backend) (f : FileObj)
    (prev : String) (m p : Int) (k1 k2 k3 : String) (sub : Bool)
    (v1 v2 v3 : Int)
    (h1 : jsParseKill numberFn k1 = some v1)
    (h2 : jsParseKill numberFn k2 = some v2)
    (h3 : jsParseKill numberFn k3 = some v3) :
    (B.uploadError (mkFileName teamId m now) f = none →
      B.insertError (mkRow teamId m v1 v2 v3 p
        (B.publicUrl (mkFileName teamId m now))) = none →
      backendCalls (handleSubmit teamId now numberFn B
          (FormState.mk (some f) prev m p [k1, k2, k3] sub)).2 =
        [Effect.upload "scoreboards" (mkFileName teamId m now) f true,
         Effect.getPublicUrl "scoreboards" (mkFileName teamId m now),
         Effect.insert "submissions" (mkRow teamId m v1 v2 v3 p
           (B.publicUrl (mkFileName teamId m now)))])
    ∧ (∀ err, B.uploadError (mkFileName teamId m now) f = none →
        B.insertError (mkRow teamId m v1 v2 v3 p
          (B.publicUrl (mkFileName teamId m now))) = some err →
        backendCalls (handleSubmit teamId now numberFn B
            (FormState.mk (some f) prev m p [k1, k2, k3] sub)).2 =
          [Effect.upload "scoreboards" (mkFileName teamId m now) f true,
           Effect.getPublicUrl "scoreboards" (mkFileName teamId m now),
           Effect.insert "submissions" (mkRow teamId m v1 v2 v3 p
             (B.publicUrl (mkFileName teamId m now)))])
    ∧ (mkRow teamId m v1 v2 v3 p
        (B.publicUrl (mkFileName teamId m now))).scoreboard_image_url =
        B.publicUrl (mkFileName teamId m now)
    ∧ (∀ err, B.uploadError (mkFileName teamId m now) f = some err →
        backendCalls (handleSubmit teamId now numberFn B
            (FormState.mk (some f) prev m p [k1, k2, k3] sub)).2 =
          [Effect.upload "scoreboards" (mkFileName teamId m now) f true]) := by
  refine ⟨fun hup hins => ?_, fun err hup hins => ?_, rfl, fun err hup => ?_⟩
  · rw [handleSubmit_success teamId now numberFn B f prev m p k1 k2 k3 sub
      v1 v2 v3 h1 h2 h3 hup hins]
    rfl
  · rw [handleSubmit_insertErr teamId now numberFn B f prev m p k1 k2 k3 sub
      v1 v2 v3 err h1 h2 h3 hup hins]
    rfl
  · rw [handleSubmit_uploadErr teamId now numberFn B f prev m p k1 k2 k3 sub
      v1 v2 v3 err h1 h2 h3 hup]
    rfl

/-- Witness for C2 at a concrete input. -/
theorem c2_backend_call_order_witness :
    jsParseKill numFn0 "" = some 0 ∧
    uploadFailBackend.uploadError (mkFileName 7 3 100) { id := 5 } =
      some "upload failed" ∧
    backendCalls (handleSubmit 7 100 numFn0 uploadFailBackend
        (FormState.mk (some { id := 5 }) "pv" 3 2 ["", "", ""] false)).2 =
      [Effect.upload "scoreboards" (mkFileName 7 3 100) { id := 5 } true] :=
  ⟨by decide, rfl,
    (c2_backend_call_order 7 100 numFn0 uploadFailBackend { id := 5 } "pv" 3 2
      "" "" "" false 0 0 0 (by decide) (by decide) (by decide)).2.2.2
      "upload failed" rfl⟩

/-- Claim C3 as stated is false at a concrete input: when the compression
call throws, handleFileChange persists the original file, which is not the
compressed version of any file (the compression produced none). -/
theorem c3_counterexample :
    (handleFileChange compressNone urlOf (some { id := 5 })
        initialFormState).1.imageFile = some { id := 5 } ∧
    ¬ ∃ cf, compressNone { id := 5 } = some cf ∧
        (handleFileChange compressNone urlOf (some { id := 5 })
          initialFormState).1.imageFile = some cf := by
  constructor
  · rfl
  · rintro ⟨cf, hc, _⟩
    simp [compressNone] at hc

/-- Claim C3 amended: when compression succeeds, the stored image (for both
the file input and the paste path) is the compressed file; when compression
fails, the original file is stored instead; and every submission that passes
validation uploads exactly the stored imageFile. -/
theorem c3_compressed_image_persisted
    (compress : FileObj → Option FileObj) (createObjectURL : FileObj → String)
    (file cf : FileObj) (s : FormState)
    (teamId now : Int) (numberFn : String → Option Int) (B : Backend)
    (f : FileObj) (prev : String) (m p : Int) (k1 k2 k3 : String) (sub : Bool)
    (v1 v2 v3 : Int)
    (h1 : jsParseKill numberFn k1 = some v1)
    (h2 : jsParseKill numberFn k2 = some v2)
    (h3 : jsParseKill numberFn k3 = some v3) :
    (compress file = some cf →
      (handleFileChange compress createObjectURL (some file) s).1.imageFile =
          some cf ∧
      (processPastedImage compress createObjectURL file s).1.imageFile =
          some cf)
    ∧ (compress file = none →
      (handleFileChange compress createObjectURL (some file) s).1.imageFile =
          some file ∧
      (processPastedImage compress createObjectURL file s).1.imageFile =
          some file)
    ∧ uploadedFiles (handleSubmit teamId now numberFn B
        (FormState.mk (some f) prev m p [k1, k2, k3] sub)).2 = [f] := by
  refine ⟨fun hc => ?_, fun hc => ?_, ?_⟩
  · constructor <;> simp [handleFileChange, processPastedImage, hc]
  · constructor <;> simp [handleFileChange, processPastedImage, hc]
  · cases hup : B.uploadError (mkFileName teamId m now) f with
    | some err =>
      rw [handleSubmit_uploadErr teamId now numberFn B f prev m p k1 k2 k3
        sub v1 v2 v3 err h1 h2 h3 hup]
      rfl
    | none =>
      cases hins : B.insertError (mkRow teamId m v1 v2 v3 p
          (B.publicUrl (mkFileName teamId m now))) with
      | some err =>
        rw [handleSubmit_insertErr teamId now numberFn B f prev m p k1 k2 k3
          sub v1 v2 v3 err h1 h2 h3 hup hins]
        rfl
      | none =>
        rw [handleSubmit_success teamId now numberFn B f prev m p k1 k2 k3
          sub v1 v2 v3 h1 h2 h3 hup hins]
        rfl

/-- Witness for the amended C3 at a concrete input. -/
theorem c3_compressed_image_persisted_witness :
    compressShrink { id := 5 } = some { id := 1005 } ∧
    jsParseKill numFn0 "" = some 0 ∧
    (handleFileChange compressShrink urlOf (some { id := 5 })
        initialFormState).1.imageFile = some { id := 1005 } ∧
    (processPastedImage compressShrink urlOf { id := 5 }
        initialFormState).1.imageFile = some { id := 1005 } ∧
    uploadedFiles (handleSubmit 7 100 numFn0 okBackend
        (FormState.mk (some { id := 1005 }) "pv" 3 2 ["", "", ""] false)).2 =
      [{ id := 1005 }] := by
  have h := c3_compressed_image_persisted compressShrink urlOf { id := 5 }
    { id := 1005 } initialFormState 7 100 numFn0 okBackend { id := 1005 }
    "pv" 3 2 "" "" "" false 0 0 0 (by decide) (by decide) (by decide)
  exact ⟨by decide, by decide, (h.1 (by decide)).1, (h.1 (by decide)).2,
    h.2.2⟩

/-- Claim C4 as stated is false at a concrete input: a compression error is
caught and logged to the console, but no blocking alert is raised. -/
theorem c4_counterexample :
    (handleFileChange compressNone urlOf (some { id := 5 })
        initialFormState).2.any isConsoleError = true ∧
    (handleFileChange compressNone urlOf (some { id := 5 })
        initialFormState).2.any isAlert = false := by
  decide

/-- Claim C4 amended: upload and insert errors are caught and surfaced via
both a blocking alert and a console log, with no retry (exactly one upload
attempt and at most one insert attempt per submission); compression errors
are caught at the call site and logged to the console, but produce no alert,
the handler falling back to the original file, and the compression call is
made exactly once. -/
theorem c4_error_surfacing
    (compress : FileObj → Option FileObj) (createObjectURL : FileObj → String)
    (file : FileObj) (s : FormState)
    (teamId now : Int) (numberFn : String → Option Int) (B : Backend)
    (f : FileObj) (prev : String) (m p : Int) (k1 k2 k3 : String) (sub : Bool)
    (v1 v2 v3 : Int)
    (h1 : jsParseKill numberFn k1 = some v1)
    (h2 : jsParseKill numberFn k2 = some v2)
    (h3 : jsParseKill numberFn k3 = some v3) :
    (compress file = none →
      (handleFileChange compress createObjectURL (some file) s).2.any
          isConsoleError = true ∧
      (handleFileChange compress createObjectURL (some file) s).2.any
          isAlert = false ∧
      compressedCalls
        (handleFileChange compress createObjectURL (some file) s).2 = [file])
    ∧ (∀ err, B.uploadError (mkFileName teamId m now) f = some err →
        (handleSubmit teamId now numberFn B
            (FormState.mk (some f) prev m p [k1, k2, k3] sub)).2.any
            isConsoleError = true ∧
        (handleSubmit teamId now numberFn B
            (FormState.mk (some f) prev m p [k1, k2, k3] sub)).2.any
            isAlert = true ∧
        uploadedFiles (handleSubmit teamId now numberFn B
            (FormState.mk (some f) prev m p [k1, k2, k3] sub)).2 = [f] ∧
        insertedRows (handleSubmit teamId now numberFn B
            (FormState.mk (some f) prev m p [k1, k2, k3] sub)).2 = [])
    ∧ (∀ err, B.uploadError (mkFileName teamId m now) f = none →
        B.insertError (mkRow teamId m v1 v2 v3 p
          (B.publicUrl (mkFileName teamId m now))) = some err →
        (handleSubmit teamId now numberFn B
            (FormState.mk (some f) prev m p [k1, k2, k3] sub)).2.any
            isConsoleError = true ∧
        (handleSubmit teamId now numberFn B
            (FormState.mk (some f) prev m p [k1, k2, k3] sub)).2.any
            isAlert = true ∧
        uploadedFiles (handleSubmit teamId now numberFn B
            (FormState.mk (some f) prev m p [k1, k2, k3] sub)).2 = [f] ∧
        insertedRows (handleSubmit teamId now numberFn B
            (FormState.mk (some f) prev m p [k1, k2, k3] sub)).2 =
          [mkRow teamId m v1 v2 v3 p
            (B.publicUrl (mkFileName teamId m now))]) := by
  refine ⟨fun hc => ?_, fun err hup => ?_, fun err hup hins => ?_⟩
  · refine ⟨?_, ?_, ?_⟩ <;> simp [handleFileChange, hc, isConsoleError,
      isAlert, compressedCalls]
  · rw [handleSubmit_uploadErr teamId now numberFn B f prev m p k1 k2 k3 sub
      v1 v2 v3 err h1 h2 h3 hup]
    refine ⟨rfl, rfl, rfl, rfl⟩
  · rw [handleSubmit_insertErr teamId now numberFn B f prev m p k1 k2 k3 sub
      v1 v2 v3 err h1 h2 h3 hup hins]
    refine ⟨rfl, rfl, rfl, rfl⟩

/-- Witness for the amended C4 at a concrete input. -/
theorem c4_error_surfacing_witness :
    compressNone { id := 5 } = none ∧
    jsParseKill numFn0 "" = some 0 ∧
    insertFailBackend.insertError (mkRow 7 3 0 0 0 2
      (insertFailBackend.publicUrl (mkFileName 7 3 100))) =
      some "insert failed" ∧
    compressedCalls (handleFileChange compressNone urlOf (some { id := 5 })
      initialFormState).2 = [{ id := 5 }] ∧
    (handleSubmit 7 100 numFn0 insertFailBackend
        (FormState.mk (some { id := 5 }) "pv" 3 2 ["", "", ""] false)).2.any
        isAlert = true := by
  have h := c4_error_surfacing compressNone urlOf { id := 5 }
    initialFormState 7 100 numFn0 insertFailBackend { id := 5 } "pv" 3 2
    "" "" "" false 0 0 0 (by decide) (by decide) (by decide)
  exact ⟨by decide, by decide, rfl, (h.1 (by decide)).2.2,
    (h.2.2 "insert failed" rfl rfl).2.1⟩

/-- Claim C5: when no image file is set, or some kill string converts to NaN
under the handler mapping (empty string excepted, it maps to 0), handleSubmit
leaves the state unchanged, emits a single blocking alert and nothing else:
no upload, no getPublicUrl, no insert, and no write to the submitting
flag. -/
theorem c5_validation_gating (teamId now : Int)
    (numberFn : String → Option Int) (B : Backend) (img : Option FileObj)
    (prev : String) (m p : Int) (k1 k2 k3 : String) (sub : Bool)
    (h : img = none ∨ ∃ k ∈ [k1, k2, k3], jsParseKill numberFn k = none) :
    (handleSubmit teamId now numberFn B
        (FormState.mk img prev m p [k1, k2, k3] sub)).1 =
      FormState.mk img prev m p [k1, k2, k3] sub
    ∧ (∃ msg, (handleSubmit teamId now numberFn B
        (FormState.mk img prev m p [k1, k2, k3] sub)).2 =
        [Effect.alertMsg msg])
    ∧ backendCalls (handleSubmit teamId now numberFn B
        (FormState.mk img prev m p [k1, k2, k3] sub)).2 = []
    ∧ (handleSubmit teamId now numberFn B
        (FormState.mk img prev m p [k1, k2, k3] sub)).2.any
        isSetSubmitting = false := by
  cases img with
  | none =>
    rw [handleSubmit_noImage teamId now numberFn B prev m p [k1, k2, k3] sub]
    exact ⟨rfl, ⟨_, rfl⟩, rfl, rfl⟩
  | some f =>
    have hk : (killsNumsOf numberFn [k1, k2, k3]).any Option.isNone = true := by
      rcases h with h | ⟨k, hmem, hnone⟩
      · simp at h
      · simp only [List.mem_cons, List.not_mem_nil, or_false] at hmem
        rcases hmem with rfl | rfl | rfl <;> simp [killsNumsOf, hnone]
    rw [handleSubmit_invalidKills teamId now numberFn B f prev m p
      [k1, k2, k3] sub hk]
    exact ⟨rfl, ⟨_, rfl⟩, rfl, rfl⟩

/-- Witness for C5 at a concrete input with a NaN kill string. -/
theorem c5_validation_gating_witness :
    ((some { id := 5 } : Option FileObj) = none ∨
      ∃ k ∈ ["x", "", ""], jsParseKill numFn0 k = none) ∧
    (handleSubmit 7 100 numFn0 okBackend
        (FormState.mk (some { id := 5 }) "pv" 3 2 ["x", "", ""] false)).1 =
      FormState.mk (some { id := 5 }) "pv" 3 2 ["x", "", ""] false ∧
    backendCalls (handleSubmit 7 100 numFn0 okBackend
        (FormState.mk (some { id := 5 }) "pv" 3 2 ["x", "", ""] false)).2 =
      [] ∧
    (handleSubmit 7 100 numFn0 okBackend
        (FormState.mk (some { id := 5 }) "pv" 3 2 ["x", "", ""] false)).2.any
      isSetSubmitting = false := by
  have h := c5_validation_gating 7 100 numFn0 okBackend (some { id := 5 })
    "pv" 3 2 "x" "" "" false (Or.inr ⟨"x", by decide, by decide⟩)
  exact ⟨Or.inr ⟨"x", by decide, by decide⟩, h.1, h.2.2.1, h.2.2.2⟩

/-- Claim C6: the submit button is rendered disabled exactly when the
submitting flag is true, and for every submission that reaches the network
the trace starts by setting submitting to true (before any backend call) and
ends by setting it back to false, whatever the backend outcome, leaving the
final submitting flag false; a press while a submission is in flight hits a
disabled control and starts no second submission. -/
theorem c6_single_inflight_submission (teamId now : Int)
    (numberFn : String → Option Int) (B : Backend) (f : FileObj)
    (prev : String) (m p : Int) (k1 k2 k3 : String) (sub : Bool)
    (v1 v2 v3 : Int)
    (h1 : jsParseKill numberFn k1 = some v1)
    (h2 : jsParseKill numberFn k2 = some v2)
    (h3 : jsParseKill numberFn k3 = some v3) :
    (∀ st : FormState, submitButtonDisabled st = st.submitting)
    ∧ (handleSubmit teamId now numberFn B
        (FormState.mk (some f) prev m p [k1, k2, k3] sub)).2.head? =
        some (Effect.setSubmitting true)
    ∧ (handleSubmit teamId now numberFn B
        (FormState.mk (some f) prev m p [k1, k2, k3] sub)).2.getLast? =
        some (Effect.setSubmitting false)
    ∧ (handleSubmit teamId now numberFn B
        (FormState.mk (some f) prev m p [k1, k2, k3] sub)).1.submitting =
        false := by
  refine ⟨fun st => rfl, ?_⟩
  cases hup : B.uploadError (mkFileName teamId m now) f with
  | some err =>
    rw [handleSubmit_uploadErr teamId now numberFn B f prev m p k1 k2 k3 sub
      v1 v2 v3 err h1 h2 h3 hup]
    exact ⟨rfl, rfl, rfl⟩
  | none =>
    cases hins : B.insertError (mkRow teamId m v1 v2 v3 p
        (B.publicUrl (mkFileName teamId m now))) with
    | some err =>
      rw [handleSubmit_insertErr teamId now numberFn B f prev m p k1 k2 k3
        sub v1 v2 v3 err h1 h2 h3 hup hins]
      exact ⟨rfl, rfl, rfl⟩
    | none =>
      rw [handleSubmit_success teamId now numberFn B f prev m p k1 k2 k3 sub
        v1 v2 v3 h1 h2 h3 hup hins]
      exact ⟨rfl, rfl, rfl⟩

/-- Witness for C6 at a concrete input. -/
theorem c6_single_inflight_submission_witness :
    jsParseKill numFn0 "" = some 0 ∧
    (handleSubmit 7 100 numFn0 okBackend
        (FormState.mk (some { id := 5 }) "pv" 3 2 ["", "", ""] false)).2.head? =
      some (Effect.setSubmitting true) ∧
    (handleSubmit 7 100 numFn0 okBackend
        (FormState.mk (some { id := 5 }) "pv" 3 2 ["", "", ""] false)).2.getLast? =
      some (Effect.setSubmitting false) ∧
    (handleSubmit 7 100 numFn0 okBackend
        (FormState.mk (some { id := 5 }) "pv" 3 2 ["", "", ""] false)).1.submitting =
      false := by
  have h := c6_single_inflight_submission 7 100 numFn0 okBackend { id := 5 }
    "pv" 3 2 "" "" "" false 0 0 0 (by decide) (by decide) (by decide)
  exact ⟨by decide, h.2.1, h.2.2.1, h.2.2.2⟩

/-- The button rendered at index i of the TopBar. -/
theorem topBar_getD (sel : Int) (i : Nat) (hi : i < 15) :
    (topBar sel).getD i dummyButton =
      { key := (i : Int) + 1,
        className := "map-button " ++
          (if sel = (i : Int) + 1 then "selected" else ""),
        label := "Map " ++ toString ((i : Int) + 1),
        onClickArg := (i : Int) + 1 } := by
  have hlen : i < (topBar sel).length := by
    unfold topBar
    rw [List.length_map, List.length_range]
    exact hi
  rw [List.getD_eq_getElem _ _ hlen]
  unfold topBar
  rw [List.getElem_map]
  rw [List.getElem_range]

/-- Claim C7: the top bar renders exactly 15 buttons; the button at index i
has key and onSelectMap argument i + 1 (so the numbers run 1 through 15 in
increasing order), its label is Map followed by its number, and it carries
the selected class exactly when its number equals the selectedMap prop. -/
theorem c7_topbar_maps (sel : Int) (i : Nat) (hi : i < 15) :
    (topBar sel).length = 15
    ∧ ((topBar sel).getD i dummyButton).onClickArg = (i : Int) + 1
    ∧ ((topBar sel).getD i dummyButton).key = (i : Int) + 1
    ∧ ((topBar sel).getD i dummyButton).label =
        "Map " ++ toString ((i : Int) + 1)
    ∧ (hasClass "selected" ((topBar sel).getD i dummyButton).className =
        true ↔ (i : Int) + 1 = sel) := by
  rw [topBar_getD sel i hi]
  have hTrue : hasClass "selected" ("map-button " ++ "selected") = true := by
    decide
  have hFalse : hasClass "selected" ("map-button " ++ "") = false := by
    decide
  refine ⟨by unfold topBar; rw [List.length_map, List.length_range], rfl, rfl,
    rfl, ?_⟩
  by_cases hc : sel = (i : Int) + 1
  · rw [if_pos hc, hTrue]
    simp [hc]
  · rw [if_neg hc, hFalse]
    simp
    exact fun h => hc h.symm

/-- Witness for C7 at a concrete input: button index 2 of topBar 3 is the
selected map 3 button. -/
theorem c7_topbar_maps_witness :
    2 < 15 ∧ (topBar 3).length = 15 ∧
    ((topBar 3).getD 2 dummyButton).onClickArg = 3 ∧
    ((topBar 3).getD 2 dummyButton).label = "Map " ++ toString (3 : Int) ∧
    hasClass "selected" ((topBar 3).getD 2 dummyButton).className = true := by
  have h := c7_topbar_maps 3 2 (by decide)
  refine ⟨by decide, h.1, ?_, ?_, h.2.2.2.2.mpr (by decide)⟩
  · rw [h.2.1]; decide
  · rw [h.2.2.2.1]; norm_num

/-- Claim C8: the kill conversion maps the empty string to 0 and any other
string through Number, and the inserted row carries exactly these converted
values in its three kill fields. -/
theorem c8_kill_string_conversion (teamId now : Int)
    (numberFn : String → Option Int) (B : Backend) (f : FileObj)
    (prev : String) (m p : Int) (k1 k2 k3 : String) (sub : Bool)
    (v1 v2 v3 : Int)
    (h1 : jsParseKill numberFn k1 = some v1)
    (h2 : jsParseKill numberFn k2 = some v2)
    (h3 : jsParseKill numberFn k3 = some v3)
    (hup : B.uploadError (mkFileName teamId m now) f = none)
    (hins : B.insertError (mkRow teamId m v1 v2 v3 p
      (B.publicUrl (mkFileName teamId m now))) = none) :
    insertedRows (handleSubmit teamId now numberFn B
        (FormState.mk (some f) prev m p [k1, k2, k3] sub)).2 =
      [mkRow teamId m v1 v2 v3 p (B.publicUrl (mkFileName teamId m now))]
    ∧ (∀ g : String → Option Int, jsParseKill g "" = some 0)
    ∧ (∀ (g : String → Option Int) (k : String), k ≠ "" →
        jsParseKill g k = g k) := by
  refine ⟨?_, fun g => by simp [jsParseKill],
    fun g k hk => by simp [jsParseKill, hk]⟩
  rw [handleSubmit_success teamId now numberFn B f prev m p k1 k2 k3 sub
    v1 v2 v3 h1 h2 h3 hup hins]
  rfl

/-- Witness for C8 at a concrete input. -/
theorem c8_kill_string_conversion_witness :
    jsParseKill numFn0 "" = some 0 ∧
    insertedRows (handleSubmit 7 100 numFn0 okBackend
        (FormState.mk (some { id := 5 }) "pv" 3 2 ["", "", ""] false)).2 =
      [mkRow 7 3 0 0 0 2 (okBackend.publicUrl (mkFileName 7 3 100))] ∧
    jsParseKill numFn0 "x" = numFn0 "x" := by
  have h := c8_kill_string_conversion 7 100 numFn0 okBackend { id := 5 }
    "pv" 3 2 "" "" "" false 0 0 0 (by decide) (by decide) (by decide) rfl rfl
  exact ⟨by decide, h.1, h.2.2 numFn0 "x" (by decide)⟩

/-- Claim C9: when the upload or the insert returns an error, the state the
handler leaves behind keeps imageFile, imagePreview, mapNumber, placement
and the three kill strings exactly as they were when submit was pressed, and
only the submitting flag is false. -/
theorem c9_failure_preserves_form (teamId now : Int)
    (numberFn : String → Option Int) (B : Backend) (f : FileObj)
    (prev : String) (m p : Int) (k1 k2 k3 : String) (sub : Bool)
    (v1 v2 v3 : Int)
    (h1 : jsParseKill numberFn k1 = some v1)
    (h2 : jsParseKill numberFn k2 = some v2)
    (h3 : jsParseKill numberFn k3 = some v3) :
    (∀ err, B.uploadError (mkFileName teamId m now) f = some err →
      (handleSubmit teamId now numberFn B
          (FormState.mk (some f) prev m p [k1, k2, k3] sub)).1 =
        FormState.mk (some f) prev m p [k1, k2, k3] false)
    ∧ (∀ err, B.uploadError (mkFileName teamId m now) f = none →
        B.insertError (mkRow teamId m v1 v2 v3 p
          (B.publicUrl (mkFileName teamId m now))) = some err →
      (handleSubmit teamId now numberFn B
          (FormState.mk (some f) prev m p [k1, k2, k3] sub)).1 =
        FormState.mk (some f) prev m p [k1, k2, k3] false) := by
  refine ⟨fun err hup => ?_, fun err hup hins => ?_⟩
  · rw [handleSubmit_uploadErr teamId now numberFn B f prev m p k1 k2 k3 sub
      v1 v2 v3 err h1 h2 h3 hup]
  · rw [handleSubmit_insertErr teamId now numberFn B f prev m p k1 k2 k3 sub
      v1 v2 v3 err h1 h2 h3 hup hins]

/-- Witness for C9 at a concrete input with a failing upload. -/
theorem c9_failure_preserves_form_witness :
    jsParseKill numFn0 "" = some 0 ∧
    uploadFailBackend.uploadError (mkFileName 7 3 100) { id := 5 } =
      some "upload failed" ∧
    (handleSubmit 7 100 numFn0 uploadFailBackend
        (FormState.mk (some { id := 5 }) "pv" 3 2 ["", "", ""] true)).1 =
      FormState.mk (some { id := 5 }) "pv" 3 2 ["", "", ""] false :=
  ⟨by decide, rfl,
    (c9_failure_preserves_form 7 100 numFn0 uploadFailBackend { id := 5 }
      "pv" 3 2 "" "" "" true 0 0 0 (by decide) (by decide) (by decide)).1
      "upload failed" rfl⟩

/-- Claim C10: after a successful submission the form advances to the next
map (previous mapNumber plus one, neither reset to 1 nor capped at 15),
placement is reset to 0, the kill strings are reset to empty, and the image
file and preview are cleared. -/
theorem c10_success_resets_and_advances (teamId now : Int)
    (numberFn : String → Option Int) (B : Backend) (f : FileObj)
    (prev : String) (m p : Int) (k1 k2 k3 : String) (sub : Bool)
    (v1 v2 v3 : Int)
    (h1 : jsParseKill numberFn k1 = some v1)
    (h2 : jsParseKill numberFn k2 = some v2)
    (h3 : jsParseKill numberFn k3 = some v3)
    (hup : B.uploadError (mkFileName teamId m now) f = none)
    (hins : B.insertError (mkRow teamId m v1 v2 v3 p
      (B.publicUrl (mkFileName teamId m now))) = none) :
    (handleSubmit teamId now numberFn B
        (FormState.mk (some f) prev m p [k1, k2, k3] sub)).1 =
      FormState.mk none "" (m + 1) 0 ["", "", ""] false := by
  rw [handleSubmit_success teamId now numberFn B f prev m p k1 k2 k3 sub
    v1 v2 v3 h1 h2 h3 hup hins]

/-- Witness for C10 at a concrete input from map 15: the next map is 16, so
the counter is not reset to 1 and not bounded by 15. -/
theorem c10_success_resets_and_advances_witness :
    jsParseKill numFn0 "" = some 0 ∧
    (handleSubmit 7 100 numFn0 okBackend
        (FormState.mk (some { id := 5 }) "pv" 15 2 ["", "", ""] false)).1 =
      FormState.mk none "" 16 0 ["", "", ""] false := by
  have h := c10_success_resets_and_advances 7 100 numFn0 okBackend
    { id := 5 } "pv" 15 2 "" "" "" false 0 0 0 (by decide) (by decide)
    (by decide) rfl rfl
  have h16 : (15 : Int) + 1 = 16 := by norm_num
  rw [h16] at h
  exact ⟨by decide, h⟩
